import Mathlib

/-
Verification of the GraphQL mutation resolvers in
src/sick-fits/backend/src/resolvers/Mutation.js.

The resolvers are shallowly embedded: the external Prisma database client is
modelled as an explicit record of entity lists threaded through each resolver,
asynchronous throwing code is modelled with Except, JavaScript runtime
TypeErrors (member access on undefined) are modelled as an explicit error
constructor, and the external collaborators (bcrypt, jwt, the mail transport,
the payment gateway) are modelled as explicit parameters or small record
values, following the narrow interfaces the spec assigns them.  Record ids
(cuids in the source) are modelled as natural numbers; a DB counter generates
fresh ids.  The GraphQL plumbing arguments parent and info are dropped: no
resolver in the file reads parent, and info only selects the response
projection, which the embedding returns in full.
-/

namespace SickFits

/-- User record as exchanged with the database layer: identity, lowercase
email, stored (hashed) password, permission labels, and the optional
password-reset token with its expiry timestamp. -/
structure User where
  id : Nat
  name : String
  email : String
  password : String
  permissions : List String
  resetToken : Option String
  resetTokenExpiry : Option Nat
deriving DecidableEq

/-- Item record: a sellable product with an owning user. -/
structure Item where
  id : Nat
  title : String
  price : Nat
  description : String
  image : String
  userId : Nat
deriving DecidableEq

/-- CartItem record: association of a user, an item and a quantity. -/
structure CartItem where
  id : Nat
  userId : Nat
  itemId : Nat
  quantity : Nat
deriving DecidableEq

/-- The database state seen through the Prisma client: the entity tables and
a counter supplying fresh record ids. -/
structure DB where
  users : List User
  items : List Item
  cartItems : List CartItem
  nextId : Nat
deriving DecidableEq

/-- Errors thrown by the resolvers.  Each constructor corresponds to one
throw site of Mutation.js (or to a JavaScript runtime TypeError raised by a
member access on undefined, or to the database client rejecting a request). -/
inductive Err where
  | notLoggedIn : Err
  | insufficientPermissions : Err
  | noSuchUser : String → Err
  | invalidPassword : Err
  | passwordMismatch : Err
  | invalidOrExpiredToken : Err
  | mustBeSignedIn : Err
  | noCartItemFound : Err
  | notCartOwner : Err
  | recordNotFound : Err
  | duplicateEmail : Err
  | jsTypeError : String → Err
deriving DecidableEq

/-- Classification of the thrown errors into the spec error kind AuthError:
not authenticated, not authorized, bad credentials, invalid or expired
token. -/
def Err.isAuthError : Err → Bool
  | .notLoggedIn => true
  | .insufficientPermissions => true
  | .invalidPassword => true
  | .invalidOrExpiredToken => true
  | .mustBeSignedIn => true
  | .notCartOwner => true
  | _ => false

/-- Classification of the thrown errors into the spec error kind
NotFoundError: a referenced entity is absent. -/
def Err.isNotFoundError : Err → Bool
  | .noSuchUser _ => true
  | .noCartItemFound => true
  | .recordNotFound => true
  | _ => false

/-- Classification of the thrown errors into the spec error kind
ValidationError: mismatched confirmation input or a storage constraint
violation. -/
def Err.isValidationError : Err → Bool
  | .passwordMismatch => true
  | .duplicateEmail => true
  | _ => false

/-- The per-request context attached by the server: the session user id
decoded from the token cookie, and the user record populated for logged-in
requests.  Either can be absent (undefined) on an unauthenticated request. -/
structure Request where
  userId : Option Nat
  user : Option User
deriving DecidableEq

/-- The resolver context: the database client and the inbound request. -/
structure Ctx where
  db : DB
  request : Request
deriving DecidableEq

/-- Modelled from the spec: the session-token issuer (jsonwebtoken, not part
of the provided sources) exposes sign(payload, secret) returning a token
readable back as the payload under the same secret.  The embedding keeps the
token abstractly as the secret paired with the signed user id. -/
def jwtSign (secret : String) (userId : Nat) : String :=
  secret ++ "." ++ toString userId

/-- The APP_SECRET environment variable, modelled as an abstract constant. -/
def APP_SECRET : String := "APP_SECRET"

/-- The JavaScript String.prototype.toLowerCase builtin, modelled as
lowercasing every character of the string. -/
def strToLower (s : String) : String := ⟨s.data.map Char.toLower⟩

/-- Modelled from the spec: the database enforces the unique-email constraint
of the User datamodel (not part of the provided sources); the spec states
signup fails with a ValidationError when the database rejects a duplicate
email.  Otherwise the created record is appended with a fresh id. -/
def DB.createUser (db : DB) (name email password : String)
    (permissions : List String) : Except Err User × DB :=
  if db.users.any (fun u => u.email == email) then
    (Except.error Err.duplicateEmail, db)
  else
    let u : User :=
      { id := db.nextId, name := name, email := email, password := password,
        permissions := permissions, resetToken := none,
        resetTokenExpiry := none }
    (Except.ok u, { db with users := db.users ++ [u], nextId := db.nextId + 1 })

/-- Prisma updateUser with a where-email filter: updates the first user whose
email matches and returns the updated record; a missing record makes the
client reject the request. -/
def DB.updateUserByEmail (db : DB) (email : String) (f : User → User) :
    Except Err User × DB :=
  match db.users.find? (fun u => u.email == email) with
  | none => (Except.error Err.recordNotFound, db)
  | some u =>
      (Except.ok (f u),
       { db with users := db.users.map (fun x => if x.email == email then f x else x) })

/-- Prisma updateUser with a where-id filter: updates the first user whose id
matches and returns the updated record. -/
def DB.updateUserById (db : DB) (uid : Nat) (f : User → User) :
    Except Err User × DB :=
  match db.users.find? (fun u => u.id == uid) with
  | none => (Except.error Err.recordNotFound, db)
  | some u =>
      (Except.ok (f u),
       { db with users := db.users.map (fun x => if x.id == uid then f x else x) })

/-- signup (Mutation.js lines 63-88): lowercases the email, hashes the
password with bcrypt at cost factor 10, creates the user with permission set
USER, signs a session token and sets it as a cookie.  bcrypt.hash at cost 10
is passed in as the function argument hash; the issued cookie token is not
part of the claims checked here, so the embedding returns the created user,
as the source does. -/
def signup (hash : String → String) (ctx : Ctx)
    (name email password : String) : Except Err User × DB :=
  let lowered := strToLower email
  let hashed := hash password
  ctx.db.createUser name lowered hashed ["USER"]

/-- signin (Mutation.js lines 89-109): looks the user up by email, throws a
not-found error for an unknown email, compares the password against the
stored hash, throws on mismatch, then signs a session token and sets it as a
cookie.  bcrypt.compare(p, h) is modelled as h equalling the bcrypt hash of
p, with bcrypt.hash passed in as the function argument hash; the embedding
returns the user together with the token placed in the cookie. -/
def signin (hash : String → String) (ctx : Ctx) (email password : String) :
    Except Err (User × String) × DB :=
  match ctx.db.users.find? (fun u => u.email == email) with
  | none => (Except.error (Err.noSuchUser email), ctx.db)
  | some user =>
      if hash password == user.password then
        (Except.ok (user, jwtSign APP_SECRET user.id), ctx.db)
      else
        (Except.error Err.invalidPassword, ctx.db)

/-- A delivery result of the mail transport.  Modelled from the spec: the
mail transport (src/mail.js) is not part of the provided sources; the spec
describes it as sendMail(message) returning a delivery result, which the
resolver receives and may inspect or ignore. -/
inductive MailResult where
  | delivered : MailResult
  | failed : String → MailResult
deriving DecidableEq

/-- An outbound email message as handed to the mail transport. -/
structure Mail where
  fromAddr : String
  toAddr : String
  subject : String
  html : String
deriving DecidableEq

/-- Modelled from the spec: makeANiceEmail (src/mail.js, not part of the
provided sources) wraps the given text into the html body of the message. -/
def makeANiceEmail (text : String) : String :=
  "nice-email:" ++ text

/-- The FRONTEND_URL environment variable, modelled as an abstract
constant. -/
def FRONTEND_URL : String := "FRONTEND_URL"

/-- The acknowledgement payload returned by requestReset. -/
structure SuccessMessage where
  message : String
deriving DecidableEq

/-- requestReset (Mutation.js lines 114-142): looks the user up by email and
throws a not-found error if absent; stores a fresh random reset token and an
expiry of now + 3600000 ms on that user; mails the token; returns the fixed
acknowledgement.  The random 20-byte hex token and the current time are
passed in as arguments, and the transport outcome is the argument
mailOutcome, which sendMail hands back to the resolver as the ignored
mailRes value. -/
def requestReset (ctx : Ctx) (email : String) (resetToken : String)
    (now : Nat) (mailOutcome : MailResult) :
    Except Err SuccessMessage × DB :=
  match ctx.db.users.find? (fun u => u.email == email) with
  | none => (Except.error (Err.noSuchUser email), ctx.db)
  | some user =>
      let resetTokenExpiry := now + 3600000
      let res := ctx.db.updateUserByEmail email
        (fun u => { u with resetToken := some resetToken,
                           resetTokenExpiry := some resetTokenExpiry })
      let mail : Mail :=
        { fromAddr := "zain.fathoni@gmail.com", toAddr := user.email,
          subject := "Your Password Reset Token",
          html := makeANiceEmail
            ("Your Password Reset Token is here! "
              ++ FRONTEND_URL ++ "/reset?resetToken=" ++ resetToken) }
      let _mailRes : Mail × MailResult := (mail, mailOutcome)
      (Except.ok { message := "Thanks!" }, res.2)

/-- The where clause of the users query in resetPassword (Mutation.js lines
150-155): resetToken equals the supplied token AND resetTokenExpiry_gte
Date.now() minus 3600000; a user whose resetTokenExpiry is null fails the
gte filter. -/
def resetTokenMatches (resetToken : String) (now : Nat) (u : User) : Bool :=
  u.resetToken == some resetToken
    && match u.resetTokenExpiry with
       | some e => now - 3600000 ≤ e
       | none => false

/-- resetPassword (Mutation.js lines 143-175): throws a validation error if
the two passwords differ; selects the users matching resetTokenMatches and
destructures the first; throws an invalid-or-expired error if there is none;
hashes the new password, stores it and clears both reset fields on the user
looked up by email; signs a session token and sets the cookie; returns the
updated user.  bcrypt.hash at cost 10 is the function argument hash and
Date.now() is the argument now. -/
def resetPassword (hash : String → String) (ctx : Ctx)
    (resetToken password confirmPassword : String) (now : Nat) :
    Except Err User × DB :=
  if password ≠ confirmPassword then
    (Except.error Err.passwordMismatch, ctx.db)
  else
    match (ctx.db.users.filter (resetTokenMatches resetToken now)).head? with
    | none => (Except.error Err.invalidOrExpiredToken, ctx.db)
    | some user =>
        let hashed := hash password
        ctx.db.updateUserByEmail user.email
          (fun u => { u with password := hashed, resetToken := none,
                             resetTokenExpiry := none })

/-- Modelled from the spec: the hasPermission helper (src/utils.js) is not
part of the provided sources; the spec states it passes when the user
permission set intersects the required permissions and otherwise fails with
an AuthError, used purely for its failure side effect. -/
def hasPermission (user : User) (permissionsNeeded : List String) :
    Except Err Unit :=
  if user.permissions.any (fun p => permissionsNeeded.contains p) then
    Except.ok ()
  else
    Except.error Err.insufficientPermissions

/-- updatePermissions (Mutation.js lines 176-204): throws if the request
carries no session user id; loads the current user by that id (a missing
record would make the subsequent permission read a TypeError on undefined);
guards with hasPermission on ADMIN and PERMISSIONUPDATE; overwrites the
target user's permission set with the provided list. -/
def updatePermissions (ctx : Ctx) (targetUserId : Nat)
    (permissions : List String) : Except Err User × DB :=
  match ctx.request.userId with
  | none => (Except.error Err.notLoggedIn, ctx.db)
  | some callerId =>
      match ctx.db.users.find? (fun u => u.id == callerId) with
      | none =>
          (Except.error (Err.jsTypeError "cannot read permissions of undefined"),
           ctx.db)
      | some currentUser =>
          match hasPermission currentUser ["ADMIN", "PERMISSIONUPDATE"] with
          | Except.error e => (Except.error e, ctx.db)
          | Except.ok _ =>
              ctx.db.updateUserById targetUserId
                (fun u => { u with permissions := permissions })

/-- The optional fields of the updateItem argument record besides the id:
the item fields a GraphQL caller may supply for a partial update. -/
structure ItemUpdates where
  title : Option String
  price : Option Nat
  description : Option String
  image : Option String
deriving DecidableEq

/-- The full updateItem argument record: the target id plus the optional
fields. -/
structure UpdateItemArgs where
  id : Nat
  title : Option String
  price : Option Nat
  description : Option String
  image : Option String
deriving DecidableEq

/-- The copy of the updateItem arguments after delete updates.id: every
provided field except the id. -/
def UpdateItemArgs.withoutId (args : UpdateItemArgs) : ItemUpdates :=
  { title := args.title, price := args.price,
    description := args.description, image := args.image }

/-- Application of a partial update record to an item, as the database
client applies the data argument: each provided field overwrites, absent
fields and the id are untouched. -/
def ItemUpdates.applyTo (upd : ItemUpdates) (it : Item) : Item :=
  { it with
    title := upd.title.getD it.title,
    price := upd.price.getD it.price,
    description := upd.description.getD it.description,
    image := upd.image.getD it.image }

/-- Prisma updateItem with a where-id filter: applies the data record to the
first item whose id matches and returns the updated record; a missing record
makes the client reject the request. -/
def DB.updateItem (db : DB) (iid : Nat) (upd : ItemUpdates) :
    Except Err Item × DB :=
  match db.items.find? (fun it => it.id == iid) with
  | none => (Except.error Err.recordNotFound, db)
  | some it =>
      (Except.ok (upd.applyTo it),
       { db with items := db.items.map (fun x => if x.id == iid then upd.applyTo x else x) })

/-- updateItem (Mutation.js lines 32-47): copies the arguments, removes the
id from the copy, and runs the database update against the item matching the
id.  No authentication, ownership or permission check appears in the
source. -/
def updateItem (ctx : Ctx) (args : UpdateItemArgs) : Except Err Item × DB :=
  let updates := args.withoutId
  ctx.db.updateItem args.id updates

/-- deleteItem (Mutation.js lines 48-62): queries the item with its owner id
(a missing item makes the item.user.id access a TypeError on null); computes
ownsItem; then unconditionally reads ctx.request.user.permissions — a
TypeError on undefined when no user record is attached to the request — and
checks it against ADMIN and ITEMDELETE; throws the permission error when
neither ownership nor a permission holds; otherwise deletes the item. -/
def deleteItem (ctx : Ctx) (iid : Nat) : Except Err Item × DB :=
  match ctx.db.items.find? (fun it => it.id == iid) with
  | none =>
      (Except.error (Err.jsTypeError "cannot read user of null"), ctx.db)
  | some item =>
      let ownsItem := some item.userId == ctx.request.userId
      match ctx.request.user with
      | none =>
          (Except.error (Err.jsTypeError "cannot read permissions of undefined"),
           ctx.db)
      | some u =>
          let hasPermissions :=
            u.permissions.any (fun permission => ["ADMIN", "ITEMDELETE"].contains permission)
          if !ownsItem && !hasPermissions then
            (Except.error Err.insufficientPermissions, ctx.db)
          else
            (Except.ok item,
             { ctx.db with items := ctx.db.items.filter (fun it => it.id != iid) })

/-- Modelled from the spec: the CartItem datamodel (not part of the provided
sources) defaults quantity to 1, so the fresh CartItem the resolver creates
without a quantity field carries quantity 1, as the spec states. -/
def DB.createCartItem (db : DB) (uid iid : Nat) : Except Err CartItem × DB :=
  let c : CartItem := { id := db.nextId, userId := uid, itemId := iid, quantity := 1 }
  (Except.ok c,
   { db with cartItems := db.cartItems ++ [c], nextId := db.nextId + 1 })

/-- Prisma updateCartItem with a where-id filter: sets the quantity of the
first cart item whose id matches and returns the updated record. -/
def DB.updateCartItem (db : DB) (cid : Nat) (quantity : Nat) :
    Except Err CartItem × DB :=
  match db.cartItems.find? (fun c => c.id == cid) with
  | none => (Except.error Err.recordNotFound, db)
  | some c =>
      (Except.ok { c with quantity := quantity },
       { db with cartItems := db.cartItems.map (fun x =>
           if x.id == cid then { x with quantity := quantity } else x) })

/-- addToCart (Mutation.js lines 205-243): requires a signed-in request;
queries the cart items of the caller for the given item and destructures the
first; when one exists, increments its quantity by 1 through the database
update; otherwise creates a fresh CartItem connecting the caller and the
item. -/
def addToCart (ctx : Ctx) (iid : Nat) : Except Err CartItem × DB :=
  match ctx.request.userId with
  | none => (Except.error Err.mustBeSignedIn, ctx.db)
  | some userId =>
      match (ctx.db.cartItems.filter
          (fun c => c.userId == userId && c.itemId == iid)).head? with
      | some existingCartItem =>
          ctx.db.updateCartItem existingCartItem.id (existingCartItem.quantity + 1)
      | none =>
          ctx.db.createCartItem userId iid

/-- removeFromCart (Mutation.js lines 244-269): queries the cart item with
its owner id; throws a not-found error when missing; throws the ownership
error when the owner id differs from the session user id; deletes the cart
item.  No hasPermission call appears in the source. -/
def removeFromCart (ctx : Ctx) (cid : Nat) : Except Err CartItem × DB :=
  match ctx.db.cartItems.find? (fun c => c.id == cid) with
  | none => (Except.error Err.noCartItemFound, ctx.db)
  | some cartItem =>
      if some cartItem.userId ≠ ctx.request.userId then
        (Except.error Err.notCartOwner, ctx.db)
      else
        (Except.ok cartItem,
         { ctx.db with cartItems := ctx.db.cartItems.filter (fun c => c.id != cid) })

/-- A charge request as submitted to the payment gateway: an integer amount
in minor currency units, a currency and the payment source token. -/
structure Charge where
  amount : Nat
  currency : String
  source : String
deriving DecidableEq

/-- The caller's cart as the user query projection returns it: each cart
line joined with its item record. -/
def DB.cartOf (db : DB) (uid : Nat) : List (CartItem × Item) :=
  (db.cartItems.filter (fun c => c.userId == uid)).filterMap
    (fun c => (db.items.find? (fun it => it.id == c.itemId)).map (fun it => (c, it)))

/-- createOrder (Mutation.js lines 270-303): requires a signed-in request;
loads the user with the cart projection (a missing user record would make
the user.cart access a TypeError on null); recalculates the total as a
reduce of item.price times quantity over the cart starting from 0; submits
the stripe charge for that amount in USD from the supplied source token.
The source stops there — order creation and cart cleanup are unwritten — so
the embedding returns the submitted charge and leaves the database
untouched. -/
def createOrder (ctx : Ctx) (token : String) : Except Err Charge × DB :=
  match ctx.request.userId with
  | none => (Except.error Err.mustBeSignedIn, ctx.db)
  | some userId =>
      match ctx.db.users.find? (fun u => u.id == userId) with
      | none =>
          (Except.error (Err.jsTypeError "cannot read cart of null"), ctx.db)
      | some _user =>
          let cart := ctx.db.cartOf userId
          let amount := cart.foldl
            (fun tally cartItem => tally + cartItem.2.price * cartItem.1.quantity) 0
          (Except.ok { amount := amount, currency := "USD", source := token },
           ctx.db)

/-
Concrete fixtures used by the witness theorems.
-/

/-- A concrete stand-in for bcrypt.hash at cost 10 in witnesses. -/
def hashEx : String → String := fun s => "hashed-" ++ s

/-- Fixture: a stored user owning the fixture items and cart lines. -/
def aliceStored : User :=
  { id := 1, name := "Alice", email := "alice@example.com",
    password := hashEx "pw1", permissions := ["USER"],
    resetToken := none, resetTokenExpiry := none }

/-- Fixture: a stored user holding the ADMIN permission. -/
def bobAdmin : User :=
  { id := 2, name := "Bob", email := "bob@example.com",
    password := hashEx "pw2", permissions := ["ADMIN"],
    resetToken := none, resetTokenExpiry := none }

/-- Fixture: item A, price 500. -/
def itemA : Item :=
  { id := 5, title := "A", price := 500, description := "item a",
    image := "a.png", userId := 1 }

/-- Fixture: item B, price 300. -/
def itemB : Item :=
  { id := 6, title := "B", price := 300, description := "item b",
    image := "b.png", userId := 1 }

/-- Fixture: cart line of user 1 holding item A with quantity 2. -/
def cartLineA : CartItem := { id := 10, userId := 1, itemId := 5, quantity := 2 }

/-- Fixture: cart line of user 1 holding item B with quantity 1. -/
def cartLineB : CartItem := { id := 11, userId := 1, itemId := 6, quantity := 1 }

/-- Fixture database holding the two users, two items and two cart lines. -/
def dbEx : DB :=
  { users := [aliceStored, bobAdmin], items := [itemA, itemB],
    cartItems := [cartLineA, cartLineB], nextId := 100 }

/-- Fixture context: Alice signed in. -/
def ctxAlice : Ctx :=
  { db := dbEx, request := { userId := some 1, user := some aliceStored } }

/-- Fixture context: Bob, an admin who owns no fixture cart line, signed
in. -/
def ctxBobAdmin : Ctx :=
  { db := dbEx, request := { userId := some 2, user := some bobAdmin } }

/-- Fixture context: an unauthenticated request. -/
def ctxAnon : Ctx :=
  { db := dbEx, request := { userId := none, user := none } }

/-- Fixture: Alice carrying a pending reset token expiring at 5000. -/
def aliceReset : User :=
  { aliceStored with resetToken := some "tok123",
                     resetTokenExpiry := some 5000 }

/-- Fixture context for resetPassword: only the pending-reset Alice is
stored and the request is unauthenticated. -/
def ctxReset : Ctx :=
  { db := { dbEx with users := [aliceReset] },
    request := { userId := none, user := none } }

/-
Theorems settling the claims.
-/

/-- Claim C5: for all valid signup inputs, the User record handed to the
database create has its email equal to the lowercase of the supplied email,
its stored password equal to the bcrypt hash of the plaintext (hence, as the
hash differs from the plaintext, never the plaintext itself), and its
permission set exactly USER; the record is what gets appended to the users
table. -/
theorem signup_stores_lowercased_hashed_user (hash : String → String)
    (ctx : Ctx) (name email password : String)
    (hnew : ctx.db.users.any (fun u => u.email == strToLower email) = false)
    (hhash : hash password ≠ password) :
    ∃ u : User, (signup hash ctx name email password).1 = Except.ok u ∧
      u.email = strToLower email ∧
      u.password = hash password ∧
      u.password ≠ password ∧
      u.permissions = ["USER"] ∧
      (signup hash ctx name email password).2.users = ctx.db.users ++ [u] := by
  refine ⟨{ id := ctx.db.nextId, name := name, email := strToLower email,
            password := hash password, permissions := ["USER"],
            resetToken := none, resetTokenExpiry := none },
          ?_, rfl, rfl, hhash, rfl, ?_⟩
  · simp [signup, DB.createUser, hnew]
  · simp [signup, DB.createUser, hnew]

/-- Claim C5 witness: signing Carol up against the fixture database stores a
lowercased email, a password differing from the plaintext, and the USER
permission set. -/
theorem signup_stores_lowercased_hashed_user_witness :
    ∃ u : User, (signup hashEx ctxAlice "Carol" "CAROL@Example.COM" "pw3").1
        = Except.ok u ∧
      u.email = "carol@example.com" ∧
      u.password ≠ "pw3" ∧
      u.permissions = ["USER"] := by
  obtain ⟨u, h1, h2, _h3, h4, h5, _h6⟩ :=
    signup_stores_lowercased_hashed_user hashEx ctxAlice "Carol"
      "CAROL@Example.COM" "pw3" (by decide) (by decide)
  exact ⟨u, h1, by rw [h2]; decide, h4, h5⟩

/-- Claim C7: signin with an email matching no user fails with the
NotFoundError; with a known email but a password whose hash comparison
against the stored hash fails it fails with the AuthError; with correct
credentials it returns the stored user and issues the signed session
token. -/
theorem signin_cases (hash : String → String) (ctx : Ctx)
    (email password : String) :
    (ctx.db.users.find? (fun u => u.email == email) = none →
       (signin hash ctx email password).1 = Except.error (Err.noSuchUser email) ∧
       (Err.noSuchUser email).isNotFoundError = true) ∧
    (∀ user, ctx.db.users.find? (fun u => u.email == email) = some user →
       (hash password ≠ user.password →
          (signin hash ctx email password).1 = Except.error Err.invalidPassword ∧
          Err.invalidPassword.isAuthError = true) ∧
       (hash password = user.password →
          (signin hash ctx email password).1
            = Except.ok (user, jwtSign APP_SECRET user.id))) := by
  refine ⟨fun hnone => ?_, fun user hfind => ⟨fun hne => ?_, fun heq => ?_⟩⟩
  · simp [signin, hnone, Err.isNotFoundError]
  · exact ⟨by simp [signin, hfind, hne], rfl⟩
  · simp [signin, hfind, heq]

/-- Claim C7 witness: against the fixture database, signin for an unknown
email is the not-found error, a wrong password for Alice is the invalid
password error, and the right password returns Alice with her session
token. -/
theorem signin_cases_witness :
    (signin hashEx ctxAlice "nobody@example.com" "pw1").1
        = Except.error (Err.noSuchUser "nobody@example.com") ∧
    (signin hashEx ctxAlice "alice@example.com" "wrong").1
        = Except.error Err.invalidPassword ∧
    (signin hashEx ctxAlice "alice@example.com" "pw1").1
        = Except.ok (aliceStored, jwtSign APP_SECRET 1) := by
  refine ⟨?_, ?_, ?_⟩
  · exact ((signin_cases hashEx ctxAlice "nobody@example.com" "pw1").1
      (by decide)).1
  · exact (((signin_cases hashEx ctxAlice "alice@example.com" "wrong").2
      aliceStored (by decide)).1 (by decide)).1
  · exact ((signin_cases hashEx ctxAlice "alice@example.com" "pw1").2
      aliceStored (by decide)).2 (by decide)

/-- Claim C8: updateItem performs no ownership or permission check — its
outcome is the same for every request identity — and, when an item with the
given id exists, it applies exactly the provided fields minus the id to that
item, leaving the id (and the untouched fields, including the owner)
unchanged. -/
theorem updateItem_ignores_caller_and_applies_fields (db : DB)
    (r1 r2 : Request) (args : UpdateItemArgs) :
    updateItem { db := db, request := r1 } args
        = updateItem { db := db, request := r2 } args ∧
    (∀ it, db.items.find? (fun x => x.id == args.id) = some it →
       ∃ it2, (updateItem { db := db, request := r1 } args).1 = Except.ok it2 ∧
         it2.id = it.id ∧
         it2.title = args.title.getD it.title ∧
         it2.price = args.price.getD it.price ∧
         it2.description = args.description.getD it.description ∧
         it2.image = args.image.getD it.image ∧
         it2.userId = it.userId) := by
  refine ⟨rfl, fun it hfind => ?_⟩
  refine ⟨args.withoutId.applyTo it, ?_, rfl, rfl, rfl, rfl, rfl, rfl⟩
  simp [updateItem, DB.updateItem, hfind]

/-- Claim C8 witness: an anonymous request updates item A of the fixture
database, changing exactly the supplied title and price and keeping id,
description, image and owner. -/
theorem updateItem_ignores_caller_and_applies_fields_witness :
    ∃ it2, (updateItem ctxAnon
        { id := 5, title := some "A2", price := some 750,
          description := none, image := none }).1 = Except.ok it2 ∧
      it2.id = 5 ∧ it2.title = "A2" ∧ it2.price = 750 ∧
      it2.description = "item a" ∧ it2.image = "a.png" ∧ it2.userId = 1 := by
  obtain ⟨it2, h1, h2, h3, h4, h5, h6, h7⟩ :=
    (updateItem_ignores_caller_and_applies_fields dbEx ctxAnon.request
      ctxAnon.request
      { id := 5, title := some "A2", price := some 750,
        description := none, image := none }).2 itemA (by decide)
  exact ⟨it2, h1, h2, h3, h4, by rw [h5]; rfl, by rw [h6]; rfl, h7⟩

/-- After mapping an email-preserving update over the users whose email
matches, the first user found under that email is the updated form of the
first user found before. -/
theorem find?_map_update_email (l : List User) (e : String) (f : User → User)
    (hf : ∀ x, (f x).email = x.email) :
    ∀ u : User, l.find? (fun v => v.email == e) = some u →
      (l.map (fun x => if x.email == e then f x else x)).find?
          (fun v => v.email == e) = some (f u) := by
  induction l with
  | nil => intro u h; simp at h
  | cons x t ih =>
      intro u h
      rw [List.find?_cons] at h
      cases hx : x.email == e with
      | true =>
          rw [hx] at h
          cases h
          rw [List.map_cons, List.find?_cons, if_pos hx, hf x, hx]
      | false =>
          rw [hx] at h
          have hxf : ¬((x.email == e) = true) := by simp [hx]
          rw [List.map_cons, List.find?_cons, if_neg hxf, hx]
          exact ih u h

/-- Claim C10: deleteItem reads the caller's permission list before the
ownership-or-permission test, so for an unauthenticated request with no user
record attached it fails with the runtime TypeError — which is not an
AuthError — even when the ownership test alone would already have rejected
the caller, and the item survives. -/
theorem deleteItem_unauthenticated_typeerror (ctx : Ctx) (iid : Nat)
    (item : Item)
    (hfind : ctx.db.items.find? (fun it => it.id == iid) = some item)
    (_hnotowner : ctx.request.userId ≠ some item.userId)
    (hnouser : ctx.request.user = none) :
    (deleteItem ctx iid).1
        = Except.error (Err.jsTypeError "cannot read permissions of undefined") ∧
    (Err.jsTypeError "cannot read permissions of undefined").isAuthError
        = false ∧
    (deleteItem ctx iid).2 = ctx.db := by
  refine ⟨?_, rfl, ?_⟩ <;> simp [deleteItem, hfind, hnouser]

/-- Claim C10 witness: the anonymous fixture request deleting item A gets
the TypeError, not an AuthError, and the database is untouched. -/
theorem deleteItem_unauthenticated_typeerror_witness :
    (deleteItem ctxAnon 5).1
        = Except.error (Err.jsTypeError "cannot read permissions of undefined") ∧
    (Err.jsTypeError "cannot read permissions of undefined").isAuthError
        = false ∧
    (deleteItem ctxAnon 5).2 = dbEx :=
  deleteItem_unauthenticated_typeerror ctxAnon 5 itemA (by decide) (by decide)
    (by decide)

/-- Claim C6: updatePermissions fails with an AuthError when the caller is
not authenticated, leaving the database unchanged; for an authenticated
caller whose permission set holds neither ADMIN nor PERMISSIONUPDATE it
fails with an AuthError, leaving the database unchanged; and for an
authorized caller it overwrites the target user's permission set with
exactly the provided list — a full replace of the stored record, never a
merge. -/
theorem updatePermissions_guards_and_replaces (ctx : Ctx) (target : Nat)
    (perms : List String) :
    (ctx.request.userId = none →
       updatePermissions ctx target perms
           = (Except.error Err.notLoggedIn, ctx.db) ∧
       Err.notLoggedIn.isAuthError = true) ∧
    (∀ callerId currentUser, ctx.request.userId = some callerId →
       ctx.db.users.find? (fun u => u.id == callerId) = some currentUser →
       ((¬ ("ADMIN" ∈ currentUser.permissions
             ∨ "PERMISSIONUPDATE" ∈ currentUser.permissions)) →
          updatePermissions ctx target perms
              = (Except.error Err.insufficientPermissions, ctx.db) ∧
          Err.insufficientPermissions.isAuthError = true) ∧
       (("ADMIN" ∈ currentUser.permissions
             ∨ "PERMISSIONUPDATE" ∈ currentUser.permissions) →
        ∀ targetUser, ctx.db.users.find? (fun u => u.id == target)
            = some targetUser →
          (updatePermissions ctx target perms).1
              = Except.ok { targetUser with permissions := perms } ∧
          (updatePermissions ctx target perms).2.users
              = ctx.db.users.map (fun x =>
                  if x.id == target then { x with permissions := perms }
                  else x))) := by
  refine ⟨fun hnone => ⟨?_, rfl⟩,
          fun callerId currentUser hsome hcaller =>
            ⟨fun hnoperm => ⟨?_, rfl⟩, fun hperm targetUser htarget => ?_⟩⟩
  · simp [updatePermissions, hnone]
  · have hne : ¬∃ x ∈ currentUser.permissions,
        x = "ADMIN" ∨ x = "PERMISSIONUPDATE" := by
      rintro ⟨p, hp, hor⟩
      cases hor with
      | inl h => exact hnoperm (Or.inl (h ▸ hp))
      | inr h => exact hnoperm (Or.inr (h ▸ hp))
    simp [updatePermissions, hsome, hcaller, hasPermission, hne]
  · have hex : ∃ x ∈ currentUser.permissions,
        x = "ADMIN" ∨ x = "PERMISSIONUPDATE" := by
      cases hperm with
      | inl h => exact ⟨"ADMIN", h, Or.inl rfl⟩
      | inr h => exact ⟨"PERMISSIONUPDATE", h, Or.inr rfl⟩
    constructor
    · simp [updatePermissions, hsome, hcaller, hasPermission, hex,
        DB.updateUserById, htarget]
    · simp [updatePermissions, hsome, hcaller, hasPermission, hex,
        DB.updateUserById, htarget]

/-- Claim C6 witness: Bob, holding ADMIN, replaces the permission set of
Alice with USER and ITEMDELETE — the stored set becomes exactly that list —
while the anonymous request fails with the AuthError and leaves the database
unchanged. -/
theorem updatePermissions_guards_and_replaces_witness :
    ((updatePermissions ctxBobAdmin 1 ["USER", "ITEMDELETE"]).1
        = Except.ok { aliceStored with permissions := ["USER", "ITEMDELETE"] } ∧
     updatePermissions ctxAnon 1 ["USER", "ITEMDELETE"]
        = (Except.error Err.notLoggedIn, dbEx)) := by
  constructor
  · exact ((((updatePermissions_guards_and_replaces ctxBobAdmin 1
      ["USER", "ITEMDELETE"]).2 2 bobAdmin rfl (by decide)).2
      (Or.inl (by decide))) aliceStored (by decide)).1
  · exact ((updatePermissions_guards_and_replaces ctxAnon 1
      ["USER", "ITEMDELETE"]).1 rfl).1

/-- Claim C4 counterexample: Bob holds ADMIN — the hasPermission guard of
the spec passes for him — and does not own cart line A, yet removeFromCart
rejects him with the ownership AuthError instead of succeeding: the resolver
has no permission fallback. -/
theorem removeFromCart_admin_nonowner_rejected :
    bobAdmin.permissions = ["ADMIN"] ∧
    hasPermission bobAdmin ["ADMIN", "ITEMDELETE"] = Except.ok () ∧
    ctxBobAdmin.request.userId = some 2 ∧
    dbEx.cartItems.find? (fun c => c.id == 10) = some cartLineA ∧
    cartLineA.userId = 1 ∧
    removeFromCart ctxBobAdmin 10 = (Except.error Err.notCartOwner, dbEx) ∧
    Err.notCartOwner.isAuthError = true := by
  exact ⟨rfl, rfl, rfl, by decide, rfl, rfl, rfl⟩

/-- Claim C4 amended: removeFromCart checks ownership only — for every
existing CartItem the operation succeeds exactly when the caller's session
id equals the cart item owner's id, deleting the row; any other caller,
whatever permissions they hold, fails with the AuthError, the database
unchanged. -/
theorem removeFromCart_owner_only (ctx : Ctx) (cid : Nat)
    (cartItem : CartItem)
    (hfind : ctx.db.cartItems.find? (fun c => c.id == cid) = some cartItem) :
    (ctx.request.userId = some cartItem.userId →
       (removeFromCart ctx cid).1 = Except.ok cartItem ∧
       (removeFromCart ctx cid).2.cartItems
           = ctx.db.cartItems.filter (fun c => c.id != cid)) ∧
    (ctx.request.userId ≠ some cartItem.userId →
       removeFromCart ctx cid = (Except.error Err.notCartOwner, ctx.db) ∧
       Err.notCartOwner.isAuthError = true) := by
  constructor
  · intro hown
    constructor <;> simp [removeFromCart, hfind, hown]
  · intro hne
    have hcond : some cartItem.userId ≠ ctx.request.userId := fun h =>
      hne h.symm
    exact ⟨by simp [removeFromCart, hfind, hcond], rfl⟩

/-- Claim C4 amended witness: Alice removes her own cart line A and it is
deleted, while Bob, the admin who does not own line B, is rejected. -/
theorem removeFromCart_owner_only_witness :
    (removeFromCart ctxAlice 10).1 = Except.ok cartLineA ∧
    removeFromCart ctxBobAdmin 11 = (Except.error Err.notCartOwner, dbEx) := by
  constructor
  · exact ((removeFromCart_owner_only ctxAlice 10 cartLineA (by decide)).1
      rfl).1
  · exact ((removeFromCart_owner_only ctxBobAdmin 11 cartLineB (by decide)).2
      (by decide)).1

/-- Claim C9: for an existing user, requestReset returns the fixed
acknowledgement payload whatever the mail transport outcome is — two runs
differing only in the delivery outcome coincide entirely, no error
surfaces — and the fresh reset token and its expiry are persisted on the
user either way. -/
theorem requestReset_ack_regardless_of_mail (ctx : Ctx)
    (email resetToken : String) (now : Nat) (user : User)
    (hfind : ctx.db.users.find? (fun u => u.email == email) = some user) :
    ∀ m1 m2 : MailResult,
      requestReset ctx email resetToken now m1
          = requestReset ctx email resetToken now m2 ∧
      (requestReset ctx email resetToken now m1).1
          = Except.ok { message := "Thanks!" } ∧
      (requestReset ctx email resetToken now m1).2.users.find?
          (fun u => u.email == email)
        = some { user with resetToken := some resetToken,
                           resetTokenExpiry := some (now + 3600000) } := by
  intro m1 m2
  refine ⟨rfl, ?_, ?_⟩
  · simp [requestReset, hfind]
  · simp only [requestReset, hfind, DB.updateUserByEmail]
    exact find?_map_update_email ctx.db.users email
      (fun u => { u with resetToken := some resetToken,
                         resetTokenExpiry := some (now + 3600000) })
      (fun x => rfl) user hfind

/-- Claim C9 witness: requesting a reset for Alice with a failed transport
outcome equals the run with a delivered outcome, acknowledges with Thanks!,
and stores the token and expiry on Alice. -/
theorem requestReset_ack_regardless_of_mail_witness :
    requestReset ctxAlice "alice@example.com" "tok123" 1000
        (MailResult.failed "smtp down")
      = requestReset ctxAlice "alice@example.com" "tok123" 1000
          MailResult.delivered ∧
    (requestReset ctxAlice "alice@example.com" "tok123" 1000
        (MailResult.failed "smtp down")).1
      = Except.ok { message := "Thanks!" } ∧
    (requestReset ctxAlice "alice@example.com" "tok123" 1000
        (MailResult.failed "smtp down")).2.users.find?
        (fun u => u.email == "alice@example.com")
      = some { aliceStored with resetToken := some "tok123",
                                resetTokenExpiry := some 3601000 } :=
  requestReset_ack_regardless_of_mail ctxAlice "alice@example.com" "tok123"
    1000 aliceStored (by decide) (MailResult.failed "smtp down")
    MailResult.delivered

/-- Claim C2: resetPassword fails with the ValidationError when password and
confirmPassword differ; when no stored record matches the supplied token
non-expired it fails with the AuthError — in both failure cases the database
is unchanged — and on success the returned and stored user carry the hash of
the supplied password with both reset fields null. -/
theorem resetPassword_cases (hash : String → String) (ctx : Ctx)
    (resetToken password confirmPassword : String) (now : Nat) :
    (password ≠ confirmPassword →
       resetPassword hash ctx resetToken password confirmPassword now
           = (Except.error Err.passwordMismatch, ctx.db) ∧
       Err.passwordMismatch.isValidationError = true) ∧
    (password = confirmPassword →
      ((ctx.db.users.filter (resetTokenMatches resetToken now)).head? = none →
         resetPassword hash ctx resetToken password confirmPassword now
             = (Except.error Err.invalidOrExpiredToken, ctx.db) ∧
         Err.invalidOrExpiredToken.isAuthError = true) ∧
      (∀ user,
         (ctx.db.users.filter (resetTokenMatches resetToken now)).head?
             = some user →
         ctx.db.users.find? (fun v => v.email == user.email) = some user →
         ((resetPassword hash ctx resetToken password confirmPassword now).1
             = Except.ok { user with password := hash password,
                                     resetToken := none,
                                     resetTokenExpiry := none }) ∧
         ((resetPassword hash ctx resetToken password
             confirmPassword now).2.users.find?
             (fun v => v.email == user.email)
           = some { user with password := hash password,
                              resetToken := none,
                              resetTokenExpiry := none }))) := by
  refine ⟨fun hne => ⟨?_, rfl⟩,
          fun heq => ⟨fun hnone => ⟨?_, rfl⟩,
                      fun user hsome hemail => ⟨?_, ?_⟩⟩⟩
  · simp [resetPassword, hne]
  · subst heq
    simp [resetPassword, hnone]
  · subst heq
    simp [resetPassword, hsome, DB.updateUserByEmail, hemail]
  · subst heq
    simp only [resetPassword, ne_eq, not_true_eq_false, if_false, hsome,
      DB.updateUserByEmail, hemail]
    exact find?_map_update_email ctx.db.users user.email
      (fun u => { u with password := hash password, resetToken := none,
                         resetTokenExpiry := none })
      (fun x => rfl) user hemail

/-- Claim C2 witness: with Alice holding the fixture token and an expiry
equal to the current time, a mismatched confirmation is the validation
error, a wrong token is the auth error, and the matching call stores the
hashed new password with both reset fields cleared. -/
theorem resetPassword_cases_witness :
    (resetPassword hashEx ctxReset "tok123" "new1" "new2" 5000)
      = (Except.error Err.passwordMismatch, ctxReset.db) ∧
    (resetPassword hashEx ctxReset "wrong" "new1" "new1" 5000)
      = (Except.error Err.invalidOrExpiredToken, ctxReset.db) ∧
    (resetPassword hashEx ctxReset "tok123" "new1" "new1" 5000).1
      = Except.ok { aliceReset with password := hashEx "new1",
                                    resetToken := none,
                                    resetTokenExpiry := none } := by
  refine ⟨?_, ?_, ?_⟩
  · exact ((resetPassword_cases hashEx ctxReset "tok123" "new1" "new2"
      5000).1 (by decide)).1
  · exact (((resetPassword_cases hashEx ctxReset "wrong" "new1" "new1"
      5000).2 rfl).1 (by decide)).1
  · exact (((resetPassword_cases hashEx ctxReset "tok123" "new1" "new1"
      5000).2 rfl).2 aliceReset (by decide) (by decide)).1

/-- Folding the running total of price times quantity from a start value is
the start value plus the sum over the mapped cart lines. -/
theorem foldl_add_mul_eq_sum (l : List (CartItem × Item)) :
    ∀ a : Nat,
      l.foldl (fun tally cartItem =>
          tally + cartItem.2.price * cartItem.1.quantity) a
        = a + (l.map (fun cartItem =>
            cartItem.2.price * cartItem.1.quantity)).sum := by
  induction l with
  | nil => intro a; simp
  | cons x t ih => intro a; simp [ih, Nat.add_assoc]

/-- Claim C3: for every authenticated caller with a stored user record,
createOrder submits a charge whose amount is the sum over the caller's cart
lines of item price times quantity, from the supplied source token, leaving
the database untouched. -/
theorem createOrder_charges_cart_total (ctx : Ctx) (token : String)
    (uid : Nat) (user : User)
    (hauth : ctx.request.userId = some uid)
    (hfind : ctx.db.users.find? (fun u => u.id == uid) = some user) :
    (createOrder ctx token).1
        = Except.ok
            { amount := ((ctx.db.cartOf uid).map
                (fun line => line.2.price * line.1.quantity)).sum,
              currency := "USD", source := token } ∧
    (createOrder ctx token).2 = ctx.db := by
  constructor
  · simp [createOrder, hauth, hfind, foldl_add_mul_eq_sum]
  · simp [createOrder, hauth, hfind]

/-- Claim C3 witness: with the fixture cart of item A at price 500 quantity
2 and item B at price 300 quantity 1, Alice is charged 1300; Bob, whose cart
is empty, is charged 0. -/
theorem createOrder_charges_cart_total_witness :
    (createOrder ctxAlice "stripe-tok").1
        = Except.ok
            { amount := 1300, currency := "USD", source := "stripe-tok" } ∧
    (createOrder ctxBobAdmin "stripe-tok").1
        = Except.ok
            { amount := 0, currency := "USD", source := "stripe-tok" } := by
  constructor
  · have h := (createOrder_charges_cart_total ctxAlice "stripe-tok" 1
      aliceStored rfl (by decide)).1
    rw [h]; rfl
  · have h := (createOrder_charges_cart_total ctxBobAdmin "stripe-tok" 2
      bobAdmin rfl (by decide)).1
    rw [h]; rfl

/-- When no element of the first list satisfies the predicate, searching the
concatenation searches the second list. -/
theorem find?_append_of_none {α : Type} (p : α → Bool) :
    ∀ l1 l2 : List α, l1.find? p = none →
      (l1 ++ l2).find? p = l2.find? p := by
  intro l1
  induction l1 with
  | nil => intro l2 _; rfl
  | cons x t ih =>
      intro l2 h
      rw [List.find?_cons] at h
      cases hx : p x with
      | true => rw [hx] at h; simp at h
      | false =>
          rw [hx] at h
          rw [List.cons_append, List.find?_cons, hx]
          exact ih l2 h

/-- Mapping a function that does not change whether elements satisfy the
predicate commutes with filtering by it. -/
theorem filter_map_preserving {α : Type} (p : α → Bool) (f : α → α)
    (hpf : ∀ x, p (f x) = p x) :
    ∀ l : List α, (l.map f).filter p = (l.filter p).map f := by
  intro l
  induction l with
  | nil => rfl
  | cons x t ih =>
      rw [List.map_cons, List.filter_cons, List.filter_cons, hpf x]
      cases p x <;> simp [ih]

/-- Claim C1: for a signed-in caller whose cart holds no line for the item,
calling addToCart twice for the same (user, item) pair with no intervening
removal leaves exactly one CartItem row for the pair, with quantity 2: the
first call creates the row with quantity 1, the second increments that same
row instead of creating a duplicate. -/
theorem addToCart_twice_one_row_quantity_two (ctx : Ctx) (uid iid : Nat)
    (hauth : ctx.request.userId = some uid)
    (hempty : ctx.db.cartItems.filter
        (fun c => c.userId == uid && c.itemId == iid) = [])
    (hfresh : ∀ c ∈ ctx.db.cartItems, c.id < ctx.db.nextId) :
    (addToCart ctx iid).1
        = Except.ok { id := ctx.db.nextId, userId := uid, itemId := iid,
                      quantity := 1 } ∧
    (addToCart { ctx with db := (addToCart ctx iid).2 } iid).1
        = Except.ok { id := ctx.db.nextId, userId := uid, itemId := iid,
                      quantity := 2 } ∧
    (addToCart { ctx with db := (addToCart ctx iid).2 } iid).2.cartItems.filter
        (fun c => c.userId == uid && c.itemId == iid)
      = [{ id := ctx.db.nextId, userId := uid, itemId := iid,
           quantity := 2 }] := by
  have h1 : addToCart ctx iid =
      (Except.ok ({ id := ctx.db.nextId, userId := uid, itemId := iid,
                    quantity := 1 } : CartItem),
       { ctx.db with
           cartItems := ctx.db.cartItems
             ++ [({ id := ctx.db.nextId, userId := uid, itemId := iid,
                    quantity := 1 } : CartItem)],
           nextId := ctx.db.nextId + 1 }) := by
    simp [addToCart, hauth, hempty, DB.createCartItem]
  have hfilter1 : (ctx.db.cartItems
      ++ [({ id := ctx.db.nextId, userId := uid, itemId := iid,
             quantity := 1 } : CartItem)]).filter
      (fun c => c.userId == uid && c.itemId == iid)
    = [({ id := ctx.db.nextId, userId := uid, itemId := iid,
          quantity := 1 } : CartItem)] := by
    rw [List.filter_append, hempty]
    simp
  have hfindid : (ctx.db.cartItems
      ++ [({ id := ctx.db.nextId, userId := uid, itemId := iid,
             quantity := 1 } : CartItem)]).find?
      (fun c => c.id == ctx.db.nextId)
    = some ({ id := ctx.db.nextId, userId := uid, itemId := iid,
              quantity := 1 } : CartItem) := by
    rw [find?_append_of_none]
    · simp
    · rw [List.find?_eq_none]
      intro c hc
      have := hfresh c hc
      simp only [beq_iff_eq]
      omega
  have hpf : ∀ x : CartItem,
      ((fun c => c.userId == uid && c.itemId == iid)
          (if (x.id == ctx.db.nextId) = true
           then { x with quantity := 1 + 1 } else x))
        = ((fun c => c.userId == uid && c.itemId == iid) x) := by
    intro x
    cases x.id == ctx.db.nextId <;> simp
  refine ⟨by rw [h1], ?_, ?_⟩
  · rw [h1]
    simp [addToCart, hauth, hfilter1, DB.updateCartItem, hfindid]
  · rw [h1]
    simp only [addToCart, hauth, hfilter1, List.head?, DB.updateCartItem,
      hfindid]
    rw [filter_map_preserving _ _ hpf, hfilter1]
    simp

/-- Claim C1 witness: Bob, whose fixture cart is empty, adds item B twice;
the first call creates the row with quantity 1, the second returns it with
quantity 2, and his cart then holds exactly one row for the pair, with
quantity 2. -/
theorem addToCart_twice_one_row_quantity_two_witness :
    (addToCart ctxBobAdmin 6).1
        = Except.ok { id := 100, userId := 2, itemId := 6, quantity := 1 } ∧
    (addToCart { ctxBobAdmin with db := (addToCart ctxBobAdmin 6).2 } 6).1
        = Except.ok { id := 100, userId := 2, itemId := 6, quantity := 2 } ∧
    (addToCart { ctxBobAdmin with
        db := (addToCart ctxBobAdmin 6).2 } 6).2.cartItems.filter
        (fun c => c.userId == 2 && c.itemId == 6)
      = [{ id := 100, userId := 2, itemId := 6, quantity := 2 }] :=
  addToCart_twice_one_row_quantity_two ctxBobAdmin 2 6 rfl (by decide)
    (by decide)

end SickFits
